import Mathlib

/-!
Shallow embedding of `src/imagebuilder.py` (the EC2 Image Builder pipeline
orchestrator `CreateImagePipeline`).

The cloud services (STS, IAM, the imagebuilder registry, S3) are modelled by an
explicit `Cloud` state; every remote call a run performs is recorded in a trace
of `CloudCall` values, in the order the Python code issues them.  Each method of
the Python class becomes a Lean function returning its trace together with an
`Except`-value: an `.error` models an uncaught Python exception (`KeyError`,
`IndexError`, or a propagating boto3 service exception) aborting the run.
-/

namespace ImageBuilder

/-- Outcome of the component registry's get-by-id call
(`imagebuilder.get_component`): success, `ResourceNotFoundException`, or
`InvalidParameterValueException`. -/
inductive GetComponentResult where
  | ok
  | notFound
  | invalidParameter
deriving Repr, DecidableEq

/-- Errors that abort a run: Python `KeyError` / `IndexError` on the parsed
definition, and uncaught cloud-service exceptions propagating out of `run`. -/
inductive RunError where
  | keyError (key : String)
  | indexError (what : String)
  | notFound (what : String)
  | invalidParameter (what : String)
  | limitExceeded (what : String)
deriving Repr, DecidableEq

/-- One remote (cloud-API) call, with the arguments relevant to the
orchestrator's behaviour.  Constructors follow the boto3 calls in
`src/imagebuilder.py` one-to-one. -/
inductive CloudCall where
  | stsGetCallerIdentity
  | iamListAccountAliases
  | iamListInstanceProfiles (path : String)
  | iamCreatePolicyVersion (policyArn : String)
  | iamListPolicyVersions (policyArn : String)
  | iamDeletePolicyVersion (policyArn : String) (versionId : String)
  | iamCreateInstanceProfile (name : String)
  | iamCreateRole (name : String)
  | iamCreatePolicy (name : String)
  | iamAttachRolePolicy (roleName : String) (policyArn : String)
  | iamAddRoleToInstanceProfile (profileName : String) (roleName : String)
  | ibGetComponent (arn : String)
  | ibListComponents (name : String)
  | ibCreateComponentInline (name version platform data : String)
  | ibCreateComponentUri (name version platform uri : String)
  | s3PutObject (bucket key : String)
  | ibListImageRecipes (name : String)
  | ibCreateImageRecipe (name version : String) (componentArns : List String)
  | ibListInfraConfigs (name : String)
  | ibCreateInfraConfig (name : String) (instanceProfileName : Option String)
  | ibListDistConfigs (name : String)
  | ibCreateDistConfig (name : String)
  | ibListImagePipelines (name : String)
  | ibDeleteImagePipeline (arn : String)
  | ibCreateImagePipeline (name recipeArn infraArn distArn : String)
  | ibStartImagePipeline (arn : String)
  | ibDeleteInfraConfig (arn : String)
  | ibDeleteDistConfig (arn : String)
deriving Repr, DecidableEq

/-- State of the cloud account, as observed through the list/get calls the
orchestrator makes.  Mappings are association lists keyed by name or arn
(first binding wins, as for a mapping).

`policyVersions` is the version history of the instance-profile permission
policy, in the order `iam.list_policy_versions` returns it: newest first, so
the last element is the oldest version — this listing order is part of the
IAM interface contract the code relies on.  `create_policy_version` raises
`LimitExceededException` exactly when the history already holds at least
`policyVersionLimit` versions. -/
structure Cloud where
  /-- get-by-arn status of each known component build version. -/
  components : List (String × GetComponentResult)
  /-- component name ↦ number of revisions a name-filtered listing returns. -/
  componentVersions : List (String × Nat)
  /-- recipe name ↦ number of revisions a name-filtered listing returns. -/
  recipeVersions : List (String × Nat)
  /-- infrastructure-configuration name ↦ arn of the existing resource. -/
  infraConfigs : List (String × String)
  /-- distribution-configuration name ↦ arn of the existing resource. -/
  distConfigs : List (String × String)
  /-- pipeline name ↦ arn of the existing pipeline. -/
  pipelines : List (String × String)
  /-- names of the instance profiles under path `/imagebuilder/`. -/
  instanceProfiles : List String
  /-- policy-version ids of the profile policy, newest first. -/
  policyVersions : List String
  /-- bounded policy-version history limit of the identity service. -/
  policyVersionLimit : Nat
  /-- the clock value `datetime.now().time()` used in staging keys. -/
  now : String
  /-- account id returned by `sts.get_caller_identity`. -/
  accountId : String
deriving Repr, DecidableEq

/-- One entry of the `components` list of the pipeline definition: the single
key of the mapping is the component name; `arn` is present for a by-reference
definition; `doc` stands for `yaml.safe_dump` of the inline document. -/
structure ComponentDef where
  name : String
  arn : Option String
  description : String
  doc : String
deriving Repr, DecidableEq

/-- The `image-recipe` sub-mapping; `none` models an absent key. -/
structure RecipeDef where
  name : Option String
  description : Option String
  parentImage : Option String
  blockDeviceMappings : Option String
  tags : Option String
deriving Repr, DecidableEq

/-- The `instance-profile` sub-mapping (`.get('name')` / `.get('file')`). -/
structure ProfileDict where
  name : Option String
  file : Option String
deriving Repr, DecidableEq

/-- The `infrastructure-configuration` sub-mapping.  The
`instanceProfileName` key may be absent (`none`) or present with a value that
is itself an optional string, exactly as the Python dict entry the code
injects can hold `None`. -/
structure InfraDef where
  name : Option String
  instanceProfileName : Option (Option String)
deriving Repr, DecidableEq

/-- The `distribution-configuration` sub-mapping. -/
structure DistDef where
  name : Option String
deriving Repr, DecidableEq

/-- The parsed pipeline definition (`yaml.safe_load` of the definition file).
Each field is `Option` because the corresponding top-level key may be missing;
an access `pipeline_dict['k']` on a missing key raises `KeyError` in Python,
modelled as `RunError.keyError`. -/
structure PipelineDict where
  platform : Option String
  components : Option (List ComponentDef)
  imageRecipe : Option RecipeDef
  instanceProfile : Option ProfileDict
  infrastructureConfiguration : Option InfraDef
  distributionConfiguration : Option DistDef
  pipelineName : Option String
deriving Repr, DecidableEq

/-- The command-line options the run consults. -/
structure RunOptions where
  componentBucket : Option String
  startPipeline : Bool
  update : Bool
deriving Repr, DecidableEq

/-- Truth of `n` being a prefix of `h` (character lists). -/
def charsPrefixOf : List Char → List Char → Bool
  | [], _ => true
  | _ :: _, [] => false
  | a :: as, b :: bs => a == b && charsPrefixOf as bs

/-- Truth of `n` occurring inside `h` (character lists). -/
def charsContains (needle : List Char) : List Char → Bool
  | [] => charsPrefixOf needle []
  | h :: t => charsPrefixOf needle (h :: t) || charsContains needle t

/-- Model of the Python substring test `needle in hay`. -/
def strContains (hay needle : String) : Bool :=
  charsContains needle.data hay.data

/-- Number of revisions a name-filtered listing reports for `name`. -/
def versionsListed (l : List (String × Nat)) (name : String) : Nat :=
  (l.lookup name).getD 0

/-- The listing after one more revision of `name` was created. -/
def bumpVersions (l : List (String × Nat)) (name : String) : List (String × Nat) :=
  (name, versionsListed l name + 1) :: l

/-- Arn of the permission policy the provisioner creates/updates, at path
`/imagebuilder/` in the given account. -/
def policyArnFor (accountId resourceName : String) : String :=
  "arn:aws:iam::" ++ accountId ++ ":policy/imagebuilder/" ++ resourceName

/-- Model of the component-build-version arn the registry returns on create. -/
def mkComponentArn (name version : String) : String :=
  "arn:aws:imagebuilder:component/" ++ name ++ "/" ++ version

/-- Model of the image-recipe arn the registry returns on create. -/
def mkRecipeArn (name version : String) : String :=
  "arn:aws:imagebuilder:image-recipe/" ++ name ++ "/" ++ version

/-- Model of the infrastructure-configuration arn returned on create. -/
def mkInfraArn (name : String) : String :=
  "arn:aws:imagebuilder:infrastructure-configuration/" ++ name

/-- Model of the distribution-configuration arn returned on create. -/
def mkDistArn (name : String) : String :=
  "arn:aws:imagebuilder:distribution-configuration/" ++ name

/-- Model of the image-pipeline arn returned on create. -/
def mkPipelineArn (name : String) : String :=
  "arn:aws:imagebuilder:image-pipeline/" ++ name

/-- Model of the image-build-version arn returned by
`start_image_pipeline_execution`. -/
def mkImageArn (pipelineArn : String) : String :=
  pipelineArn ++ "/image/1"

/-- Result of `imagebuilder.get_component` on `arn`: unknown arns raise
`ResourceNotFoundException`. -/
def getComponent (cloud : Cloud) (arn : String) : GetComponentResult :=
  (cloud.components.lookup arn).getD .notFound

/-- The S3 key `create_components` stages an inline component body under. -/
def stagingKey (name now : String) : String :=
  "imagebuilder/" ++ name ++ "_" ++ now ++ ".yaml"

/-- The two remote calls `get_session_details` makes at the start of `run`. -/
def sessionCalls : List CloudCall :=
  [.stsGetCallerIdentity, .iamListAccountAliases]

/-- Shallow embedding of `CreateImagePipeline.create_instance_profile`
(src/imagebuilder.py lines 168-246).  Note that the existence check filters
the `/imagebuilder/` listing for profile names containing the literal
substring `ec2-image-builder-default`, not for the derived `resourceName` —
faithfully to the source. -/
def create_instance_profile (update : Bool) (p : ProfileDict) (accountId : String)
    (cloud : Cloud) : List CloudCall × Except RunError (String × Cloud) :=
  match p.name with
  | none => ([], .error (.keyError "name"))
  | some nm =>
    let resourceName := "imagebuilder-" ++ nm
    let listCall : CloudCall := .iamListInstanceProfiles "/imagebuilder/"
    if 0 < (cloud.instanceProfiles.filter
              (fun d => strContains d "ec2-image-builder-default")).length then
      if update then
        let polArn := policyArnFor accountId resourceName
        if cloud.policyVersions.length < cloud.policyVersionLimit then
          ([listCall, .iamCreatePolicyVersion polArn],
           .ok (resourceName, { cloud with policyVersions := "vNew" :: cloud.policyVersions }))
        else
          match cloud.policyVersions.getLast? with
          | none =>
            ([listCall, .iamCreatePolicyVersion polArn, .iamListPolicyVersions polArn],
             .error (.indexError "Versions"))
          | some oldest =>
            let remaining := cloud.policyVersions.dropLast
            if remaining.length < cloud.policyVersionLimit then
              ([listCall, .iamCreatePolicyVersion polArn, .iamListPolicyVersions polArn,
                .iamDeletePolicyVersion polArn oldest, .iamCreatePolicyVersion polArn],
               .ok (resourceName, { cloud with policyVersions := "vNew" :: remaining }))
            else
              ([listCall, .iamCreatePolicyVersion polArn, .iamListPolicyVersions polArn,
                .iamDeletePolicyVersion polArn oldest, .iamCreatePolicyVersion polArn],
               .error (.limitExceeded "create_policy_version"))
      else
        ([listCall], .ok (resourceName, cloud))
    else
      let polArn := policyArnFor accountId resourceName
      ([listCall, .iamCreateInstanceProfile resourceName, .iamCreateRole resourceName,
        .iamCreatePolicy resourceName, .iamAttachRolePolicy resourceName polArn,
        .iamAddRoleToInstanceProfile resourceName resourceName],
       .ok (resourceName,
            { cloud with instanceProfiles := cloud.instanceProfiles ++ [resourceName] }))

/-- One iteration of the loop body of `create_components`
(src/imagebuilder.py lines 251-302).  Returns the arn appended to the
component list (`none` when a not-found by-reference component is skipped
with a logged error). -/
def resolveComponent (bucket : Option String) (platform : String) (c : ComponentDef)
    (cloud : Cloud) : List CloudCall × Except RunError (Option String × Cloud) :=
  match c.arn with
  | some arn =>
    match getComponent cloud arn with
    | .ok => ([.ibGetComponent arn], .ok (some arn, cloud))
    | .notFound => ([.ibGetComponent arn], .ok (none, cloud))
    | .invalidParameter =>
      let arn1 := arn ++ "/1"
      match getComponent cloud arn1 with
      | .ok => ([.ibGetComponent arn, .ibGetComponent arn1], .ok (some arn1, cloud))
      | .notFound => ([.ibGetComponent arn, .ibGetComponent arn1], .error (.notFound arn1))
      | .invalidParameter =>
        ([.ibGetComponent arn, .ibGetComponent arn1], .error (.invalidParameter arn1))
  | none =>
    let n := versionsListed cloud.componentVersions c.name
    let version := "0.0." ++ toString (n + 1)
    let newArn := mkComponentArn c.name version
    let cloud' := { cloud with
      componentVersions := bumpVersions cloud.componentVersions c.name,
      components := (newArn, .ok) :: cloud.components }
    match bucket with
    | none =>
      ([.ibListComponents c.name, .ibCreateComponentInline c.name version platform c.doc],
       .ok (some newArn, cloud'))
    | some b =>
      let key := stagingKey c.name cloud.now
      ([.ibListComponents c.name, .s3PutObject b key,
        .ibCreateComponentUri c.name version platform ("s3://" ++ b ++ "/" ++ key)],
       .ok (some newArn, cloud'))

/-- Shallow embedding of `CreateImagePipeline.create_components`
(src/imagebuilder.py lines 248-305): the loop over the component
definitions, accumulating the list of resolved arns. -/
def create_components (bucket : Option String) (platform : String) :
    List ComponentDef → Cloud → List CloudCall × Except RunError (List String × Cloud)
  | [], cloud => ([], .ok ([], cloud))
  | c :: rest, cloud =>
    match resolveComponent bucket platform c cloud with
    | (t, .error e) => (t, .error e)
    | (t, .ok (oarn, cloud1)) =>
      match create_components bucket platform rest cloud1 with
      | (t2, .error e) => (t ++ t2, .error e)
      | (t2, .ok (l, cloud2)) => (t ++ t2, .ok (oarn.toList ++ l, cloud2))

/-- Shallow embedding of `CreateImagePipeline.create_image_recipe`
(src/imagebuilder.py lines 307-335). -/
def create_image_recipe (componentArns : List String) (r : RecipeDef) (cloud : Cloud) :
    List CloudCall × Except RunError (String × Cloud) :=
  match r.name with
  | none => ([], .error (.keyError "name"))
  | some nm =>
    let minor := 1 + versionsListed cloud.recipeVersions nm
    let version := "0.0." ++ toString minor
    match r.description with
    | none => ([.ibListImageRecipes nm], .error (.keyError "description"))
    | some _ =>
      match r.parentImage with
      | none => ([.ibListImageRecipes nm], .error (.keyError "parentImage"))
      | some _ =>
        ([.ibListImageRecipes nm, .ibCreateImageRecipe nm version componentArns],
         .ok (mkRecipeArn nm version,
              { cloud with recipeVersions := bumpVersions cloud.recipeVersions nm }))

/-- Shallow embedding of `CreateImagePipeline.create_infrastructure_config`
(src/imagebuilder.py lines 337-353).  On the create path the Python code
mutates the definition dict in place
(`infrastructure_def['instanceProfileName'] = instance_profile`); the
returned `InfraDef` is the definition as left behind by the call. -/
def create_infrastructure_config (instProfile : Option String) (d : InfraDef)
    (cloud : Cloud) : List CloudCall × Except RunError (String × InfraDef × Cloud) :=
  match d.name with
  | none => ([], .error (.keyError "name"))
  | some nm =>
    match cloud.infraConfigs.lookup nm with
    | some arn => ([.ibListInfraConfigs nm], .ok (arn, d, cloud))
    | none =>
      let d' := { d with instanceProfileName := some instProfile }
      ([.ibListInfraConfigs nm, .ibCreateInfraConfig nm instProfile],
       .ok (mkInfraArn nm, d',
            { cloud with infraConfigs := (nm, mkInfraArn nm) :: cloud.infraConfigs }))

/-- Shallow embedding of `CreateImagePipeline.create_distribution_configuration`
(src/imagebuilder.py lines 355-371). -/
def create_distribution_configuration (d : DistDef) (cloud : Cloud) :
    List CloudCall × Except RunError (String × Cloud) :=
  match d.name with
  | none => ([], .error (.keyError "name"))
  | some nm =>
    match cloud.distConfigs.lookup nm with
    | some arn => ([.ibListDistConfigs nm], .ok (arn, cloud))
    | none =>
      ([.ibListDistConfigs nm, .ibCreateDistConfig nm],
       .ok (mkDistArn nm, { cloud with distConfigs := (nm, mkDistArn nm) :: cloud.distConfigs }))

/-- Shallow embedding of `CreateImagePipeline.create_image_pipeline`
(src/imagebuilder.py lines 373-395). -/
def create_image_pipeline (nm recipeArn infraArn distArn : String) (cloud : Cloud) :
    List CloudCall × Except RunError (String × Cloud) :=
  match cloud.pipelines.lookup nm with
  | some oldArn =>
    ([.ibListImagePipelines nm, .ibDeleteImagePipeline oldArn,
      .ibCreateImagePipeline nm recipeArn infraArn distArn],
     .ok (mkPipelineArn nm,
          { cloud with pipelines :=
              (nm, mkPipelineArn nm) :: cloud.pipelines.filter (fun kv => kv.1 != nm) }))
  | none =>
    ([.ibListImagePipelines nm, .ibCreateImagePipeline nm recipeArn infraArn distArn],
     .ok (mkPipelineArn nm, { cloud with pipelines := (nm, mkPipelineArn nm) :: cloud.pipelines }))

/-- Shallow embedding of `CreateImagePipeline.start_image_pipeline`
(src/imagebuilder.py lines 397-404). -/
def start_image_pipeline (pipelineArn : String) : List CloudCall × String :=
  ([.ibStartImagePipeline pipelineArn], mkImageArn pipelineArn)

/-- First block of `delete_pipeline_resources`: delete the pipeline named
`pnm` unconditionally if present (src/imagebuilder.py lines 409-417). -/
def teardownPipelineStep (pnm : String) (cloud : Cloud) : List CloudCall × Cloud :=
  match cloud.pipelines.lookup pnm with
  | some arn =>
    ([CloudCall.ibListImagePipelines pnm, CloudCall.ibDeleteImagePipeline arn],
     { cloud with pipelines := cloud.pipelines.filter (fun kv => kv.1 != pnm) })
  | none => ([CloudCall.ibListImagePipelines pnm], cloud)

/-- Second block of `delete_pipeline_resources`: delete the infrastructure
configuration named `inm` when present and update mode is set
(src/imagebuilder.py lines 418-427). -/
def teardownInfraStep (update : Bool) (inm : String) (cloud : Cloud) :
    List CloudCall × Cloud :=
  match cloud.infraConfigs.lookup inm with
  | some arn =>
    if update then
      ([CloudCall.ibListInfraConfigs inm, CloudCall.ibDeleteInfraConfig arn],
       { cloud with infraConfigs := cloud.infraConfigs.filter (fun kv => kv.1 != inm) })
    else ([CloudCall.ibListInfraConfigs inm], cloud)
  | none => ([CloudCall.ibListInfraConfigs inm], cloud)

/-- Third block of `delete_pipeline_resources`: delete the distribution
configuration named `dnm` when present and update mode is set
(src/imagebuilder.py lines 429-438). -/
def teardownDistStep (update : Bool) (dnm : String) (cloud : Cloud) :
    List CloudCall × Cloud :=
  match cloud.distConfigs.lookup dnm with
  | some arn =>
    if update then
      ([CloudCall.ibListDistConfigs dnm, CloudCall.ibDeleteDistConfig arn],
       { cloud with distConfigs := cloud.distConfigs.filter (fun kv => kv.1 != dnm) })
    else ([CloudCall.ibListDistConfigs dnm], cloud)
  | none => ([CloudCall.ibListDistConfigs dnm], cloud)

/-- Shallow embedding of `CreateImagePipeline.delete_pipeline_resources`
(src/imagebuilder.py lines 406-438): the update-mode teardown. -/
def delete_pipeline_resources (update : Bool) (pd : PipelineDict) (cloud : Cloud) :
    List CloudCall × Except RunError Cloud :=
  match pd.pipelineName with
  | none => ([], .error (.keyError "pipeline-name"))
  | some pnm =>
    match teardownPipelineStep pnm cloud with
    | (t1, cloud1) =>
      match pd.infrastructureConfiguration with
      | none => (t1, .error (.keyError "infrastructure-configuration"))
      | some infra =>
        match infra.name with
        | none => (t1, .error (.keyError "name"))
        | some inm =>
          match teardownInfraStep update inm cloud1 with
          | (t2, cloud2) =>
            match pd.distributionConfiguration with
            | none => (t1 ++ t2, .error (.keyError "distribution-configuration"))
            | some dist =>
              match dist.name with
              | none => (t1 ++ t2, .error (.keyError "name"))
              | some dnm =>
                match teardownDistStep update dnm cloud2 with
                | (t3, cloud3) => (t1 ++ t2 ++ t3, .ok cloud3)

/-- Decidable equality for `Except`, so that whole run results can be
compared on concrete inputs. -/
instance {ε α : Type} [DecidableEq ε] [DecidableEq α] : DecidableEq (Except ε α) := fun a b =>
  match a, b with
  | .ok x, .ok y =>
    if h : x = y then isTrue (by rw [h]) else isFalse (by intro hh; cases hh; exact h rfl)
  | .error x, .error y =>
    if h : x = y then isTrue (by rw [h]) else isFalse (by intro hh; cases hh; exact h rfl)
  | .ok _, .error _ => isFalse (by intro hh; cases hh)
  | .error _, .ok _ => isFalse (by intro hh; cases hh)

/-- Overall result of one `run`: the full ordered trace of remote calls, the
outcome (`.error` models the uncaught exception aborting the run), the
pipeline definition as left in memory, and the cloud state.  On an error the
cloud state reported is the state at entry to the failing stage (the run
stops there anyway). -/
structure RunResult where
  calls : List CloudCall
  outcome : Except RunError Unit
  finalDef : PipelineDict
  finalCloud : Cloud
deriving Repr, DecidableEq

/-- Error result helper: abort with trace `acc`. -/
def mkErr (acc : List CloudCall) (e : RunError) (pdCur : PipelineDict)
    (cloud : Cloud) : RunResult :=
  { calls := acc, outcome := .error e, finalDef := pdCur, finalCloud := cloud }

/-- Tail of `run` from the optional pipeline start (src/imagebuilder.py
lines 163-166). -/
def runStart (opts : RunOptions) (pipelineArn : String) (acc : List CloudCall)
    (pdCur : PipelineDict) (cloud : Cloud) : RunResult :=
  if opts.startPipeline then
    { calls := acc ++ (start_image_pipeline pipelineArn).1, outcome := .ok (),
      finalDef := pdCur, finalCloud := cloud }
  else
    { calls := acc, outcome := .ok (), finalDef := pdCur, finalCloud := cloud }

/-- Tail of `run` from the pipeline-provisioning stage (src/imagebuilder.py
lines 160-162). -/
def runPipeline (opts : RunOptions) (recipeArn infraArn distArn : String)
    (acc : List CloudCall) (pdCur : PipelineDict) (cloud : Cloud) : RunResult :=
  match pdCur.pipelineName with
  | none => mkErr acc (.keyError "pipeline-name") pdCur cloud
  | some pnm =>
    match create_image_pipeline pnm recipeArn infraArn distArn cloud with
    | (t, .error e) => mkErr (acc ++ t) e pdCur cloud
    | (t, .ok (parn, cloud1)) => runStart opts parn (acc ++ t) pdCur cloud1

/-- Tail of `run` from the distribution-configuration stage
(src/imagebuilder.py lines 158-159). -/
def runDist (opts : RunOptions) (recipeArn infraArn : String) (acc : List CloudCall)
    (pdCur : PipelineDict) (cloud : Cloud) : RunResult :=
  match pdCur.distributionConfiguration with
  | none => mkErr acc (.keyError "distribution-configuration") pdCur cloud
  | some d =>
    match create_distribution_configuration d cloud with
    | (t, .error e) => mkErr (acc ++ t) e pdCur cloud
    | (t, .ok (distArn, cloud1)) =>
      runPipeline opts recipeArn infraArn distArn (acc ++ t) pdCur cloud1

/-- Tail of `run` from the infrastructure-configuration stage
(src/imagebuilder.py lines 155-157).  The in-place mutation of the
`infrastructure-configuration` sub-dict is reflected by carrying the
definition the stage returns into `finalDef`. -/
def runInfra (opts : RunOptions) (recipeArn : String) (instProfile : Option String)
    (acc : List CloudCall) (pdCur : PipelineDict) (cloud : Cloud) : RunResult :=
  match pdCur.infrastructureConfiguration with
  | none => mkErr acc (.keyError "infrastructure-configuration") pdCur cloud
  | some d =>
    match create_infrastructure_config instProfile d cloud with
    | (t, .error e) => mkErr (acc ++ t) e pdCur cloud
    | (t, .ok (infraArn, d1, cloud1)) =>
      runDist opts recipeArn infraArn (acc ++ t)
        { pdCur with infrastructureConfiguration := some d1 } cloud1

/-- Tail of `run` from the instance-profile stage (src/imagebuilder.py
lines 150-154): the profile provisioner runs only when the sub-mapping has a
`file` entry; otherwise its `name` entry is passed through unchanged. -/
def runProfile (opts : RunOptions) (recipeArn : String) (acc : List CloudCall)
    (pdCur : PipelineDict) (cloud : Cloud) : RunResult :=
  match pdCur.instanceProfile with
  | none => mkErr acc (.keyError "instance-profile") pdCur cloud
  | some p =>
    match p.file with
    | some _ =>
      match create_instance_profile opts.update p cloud.accountId cloud with
      | (t, .error e) => mkErr (acc ++ t) e pdCur cloud
      | (t, .ok (nm, cloud1)) => runInfra opts recipeArn (some nm) (acc ++ t) pdCur cloud1
    | none => runInfra opts recipeArn p.name acc pdCur cloud

/-- Tail of `run` from the image-recipe stage (src/imagebuilder.py
lines 148-149). -/
def runRecipe (opts : RunOptions) (componentList : List String) (acc : List CloudCall)
    (pdCur : PipelineDict) (cloud : Cloud) : RunResult :=
  match pdCur.imageRecipe with
  | none => mkErr acc (.keyError "image-recipe") pdCur cloud
  | some r =>
    match create_image_recipe componentList r cloud with
    | (t, .error e) => mkErr (acc ++ t) e pdCur cloud
    | (t, .ok (recipeArn, cloud1)) => runProfile opts recipeArn (acc ++ t) pdCur cloud1

/-- Tail of `run` from the component-resolution stage (src/imagebuilder.py
lines 146-147); `pipeline_dict['platform']` is evaluated before
`pipeline_dict['components']`, as Python evaluates the arguments. -/
def runComponents (opts : RunOptions) (acc : List CloudCall) (pdCur : PipelineDict)
    (cloud : Cloud) : RunResult :=
  match pdCur.platform with
  | none => mkErr acc (.keyError "platform") pdCur cloud
  | some platform =>
    match pdCur.components with
    | none => mkErr acc (.keyError "components") pdCur cloud
    | some comps =>
      match create_components opts.componentBucket platform comps cloud with
      | (t, .error e) => mkErr (acc ++ t) e pdCur cloud
      | (t, .ok (componentList, cloud1)) =>
        runRecipe opts componentList (acc ++ t) pdCur cloud1

/-- Shallow embedding of `CreateImagePipeline.run` (src/imagebuilder.py
lines 127-166): session details first, then (in update mode) the teardown,
then the six provisioning stages in the order the code calls them. -/
def run (opts : RunOptions) (pd : PipelineDict) (cloud : Cloud) : RunResult :=
  if opts.update then
    match delete_pipeline_resources opts.update pd cloud with
    | (t, .error e) => mkErr (sessionCalls ++ t) e pd cloud
    | (t, .ok cloud1) => runComponents opts (sessionCalls ++ t) pd cloud1
  else
    runComponents opts sessionCalls pd cloud

/-- Calls to the identity service concerning the instance profile, its role
and its permission policy. -/
def isProfileIamCall : CloudCall → Bool
  | .iamListInstanceProfiles _ => true
  | .iamCreatePolicyVersion _ => true
  | .iamListPolicyVersions _ => true
  | .iamDeletePolicyVersion _ _ => true
  | .iamCreateInstanceProfile _ => true
  | .iamCreateRole _ => true
  | .iamCreatePolicy _ => true
  | .iamAttachRolePolicy _ _ => true
  | .iamAddRoleToInstanceProfile _ _ => true
  | _ => false

/-- The image-recipe creation call. -/
def isRecipeCreate : CloudCall → Bool
  | .ibCreateImageRecipe _ _ _ => true
  | _ => false

/-- The inline component creation call (body embedded in the request). -/
def isInlineCreate : CloudCall → Bool
  | .ibCreateComponentInline _ _ _ _ => true
  | _ => false

/-- The `instanceProfileName` argument of an infrastructure-configuration
create call; `none` for any other call. -/
def infraCreateArg : CloudCall → Option (Option String)
  | .ibCreateInfraConfig _ ipn => some ipn
  | _ => none

/-- Which of the stages of `run` a call belongs to, numbered in the order the
code executes them: 0 session details, 1 component resolution, 2 image
recipe, 3 instance profile, 4 infrastructure configuration, 5 distribution
configuration, 6 pipeline, 7 pipeline start.  (The update-mode teardown
re-uses stage-4/5/6 call kinds and is therefore treated separately.) -/
def stageOf : CloudCall → Nat
  | .stsGetCallerIdentity => 0
  | .iamListAccountAliases => 0
  | .ibGetComponent _ => 1
  | .ibListComponents _ => 1
  | .ibCreateComponentInline _ _ _ _ => 1
  | .ibCreateComponentUri _ _ _ _ => 1
  | .s3PutObject _ _ => 1
  | .ibListImageRecipes _ => 2
  | .ibCreateImageRecipe _ _ _ => 2
  | .iamListInstanceProfiles _ => 3
  | .iamCreatePolicyVersion _ => 3
  | .iamListPolicyVersions _ => 3
  | .iamDeletePolicyVersion _ _ => 3
  | .iamCreateInstanceProfile _ => 3
  | .iamCreateRole _ => 3
  | .iamCreatePolicy _ => 3
  | .iamAttachRolePolicy _ _ => 3
  | .iamAddRoleToInstanceProfile _ _ => 3
  | .ibListInfraConfigs _ => 4
  | .ibCreateInfraConfig _ _ => 4
  | .ibDeleteInfraConfig _ => 4
  | .ibListDistConfigs _ => 5
  | .ibCreateDistConfig _ => 5
  | .ibDeleteDistConfig _ => 5
  | .ibListImagePipelines _ => 6
  | .ibDeleteImagePipeline _ => 6
  | .ibCreateImagePipeline _ _ _ _ => 6
  | .ibStartImagePipeline _ => 7

/-- A trace whose calls belong to nondecreasing stages: control flows
strictly forward through the stages and never re-enters an earlier one. -/
def StageSorted (l : List CloudCall) : Prop :=
  List.Chain' (fun a b => stageOf a ≤ stageOf b) l

/-- Every call of the trace belongs to a stage of index at most `k`. -/
def StageBounded (k : Nat) (l : List CloudCall) : Prop :=
  ∀ c ∈ l, stageOf c ≤ k

/-- A call that is neither an identity-service call for the instance profile
nor an infrastructure-configuration create with a profile argument other
than `ipn`. -/
def BenignFor (ipn : Option String) (c : CloudCall) : Prop :=
  isProfileIamCall c = false ∧ (infraCreateArg c = none ∨ infraCreateArg c = some ipn)

/-- Every call of the trace is benign for `ipn`. -/
def Benign (ipn : Option String) (l : List CloudCall) : Prop :=
  ∀ c ∈ l, BenignFor ipn c

/-- The pipeline definition differs from `pd` at most by the
`instanceProfileName` entry of its infrastructure-configuration sub-mapping. -/
def InfraOnlyDiff (pd pd' : PipelineDict) : Prop :=
  pd'.platform = pd.platform ∧
  pd'.components = pd.components ∧
  pd'.imageRecipe = pd.imageRecipe ∧
  pd'.instanceProfile = pd.instanceProfile ∧
  pd'.distributionConfiguration = pd.distributionConfiguration ∧
  pd'.pipelineName = pd.pipelineName ∧
  (pd'.infrastructureConfiguration = pd.infrastructureConfiguration ∨
   ∃ d v, pd.infrastructureConfiguration = some d ∧
     pd'.infrastructureConfiguration = some { d with instanceProfileName := some v })

/-- A cloud account with no pre-existing resources. -/
def emptyCloud : Cloud :=
  { components := [], componentVersions := [], recipeVersions := [], infraConfigs := [],
    distConfigs := [], pipelines := [], instanceProfiles := [], policyVersions := [],
    policyVersionLimit := 5, now := "t0", accountId := "123456789012" }

/-- Plain options: no staging bucket, no immediate start, no update mode. -/
def optsPlain : RunOptions :=
  { componentBucket := none, startPipeline := false, update := false }

/-- A complete, well-formed pipeline definition whose instance-profile
section has a policy file, used as a concrete test input. -/
def pdFull : PipelineDict :=
  { platform := some "Linux",
    components := some [],
    imageRecipe := some { name := some "base-recipe", description := some "d",
                          parentImage := some "ami-123", blockDeviceMappings := none,
                          tags := none },
    instanceProfile := some { name := some "prof", file := some "policy.json" },
    infrastructureConfiguration := some { name := some "infra1", instanceProfileName := none },
    distributionConfiguration := some { name := some "dist1" },
    pipelineName := some "pipe1" }

/-- Variant of `pdFull` with the `platform` key removed. -/
def pdNoPlatform : PipelineDict :=
  { pdFull with platform := none }

/-- Variant of `pdFull` with no policy file in the instance-profile section. -/
def pdNoFile : PipelineDict :=
  { pdFull with instanceProfile := some { name := some "prof", file := none } }

/-- Instance-profile section named `foo`, with a policy file. -/
def profFoo : ProfileDict := { name := some "foo", file := some "policy.json" }

/-- Instance-profile section named `bar`, with a policy file. -/
def profBar : ProfileDict := { name := some "bar", file := some "policy.json" }

/-- Account where the derived profile name `imagebuilder-foo` is listed under
`/imagebuilder/` (and nothing matches the hardcoded filter string). -/
def cloudDerivedExists : Cloud :=
  { emptyCloud with instanceProfiles := ["imagebuilder-foo"] }

/-- Account whose only `/imagebuilder/` profile matches the hardcoded filter
string, while no derived name is present. -/
def cloudHardcodedExists : Cloud :=
  { emptyCloud with instanceProfiles := ["ec2-image-builder-default"] }

/-- Account where the profile policy's version history is at the limit. -/
def cloudPolicyFull : Cloud :=
  { emptyCloud with instanceProfiles := ["ec2-image-builder-default"],
                    policyVersions := ["v5", "v4", "v3", "v2", "v1"] }

/-- A by-reference component definition. -/
def compRef : ComponentDef :=
  { name := "agent", arn := some "arn:comp/agent", description := "", doc := "" }

/-- An inline component definition. -/
def compInline : ComponentDef :=
  { name := "install-agent", arn := none, description := "installs", doc := "doc-yaml" }

/-- Account where `arn:comp/agent` triggers the malformed-identifier quirk
and the arn with the `/1` suffix exists. -/
def cloudQuirk : Cloud :=
  { emptyCloud with
      components := [("arn:comp/agent", .invalidParameter), ("arn:comp/agent/1", .ok)] }

/-- Account where `infra1` and `dist1` configurations already exist. -/
def cloudConfigsExist : Cloud :=
  { emptyCloud with infraConfigs := [("infra1", "arn:infra/old")],
                    distConfigs := [("dist1", "arn:dist/old")] }

/-- Account where pipeline `pipe1` already exists. -/
def cloudPipelineExists : Cloud :=
  { emptyCloud with pipelines := [("pipe1", "arn:pipe/old")] }

/-- C3: the instance-profile provisioner derives the resource name as
`imagebuilder-` plus the configured name, but its existence check does NOT
test for that derived name: it filters the `/imagebuilder/` listing for the
hardcoded substring `ec2-image-builder-default`.  Evaluated here at the
failing inputs: with configured name `foo` and the derived name
`imagebuilder-foo` actually listed, the creation branch (all four creation
calls) runs anyway; with configured name `bar` and no profile named
`imagebuilder-bar`, the reuse branch is taken because an unrelated profile
matches the hardcoded filter. -/
theorem existence_check_ignores_derived_name :
    (create_instance_profile false profFoo "123456789012" cloudDerivedExists).1 =
      [.iamListInstanceProfiles "/imagebuilder/",
       .iamCreateInstanceProfile "imagebuilder-foo",
       .iamCreateRole "imagebuilder-foo",
       .iamCreatePolicy "imagebuilder-foo",
       .iamAttachRolePolicy "imagebuilder-foo"
         (policyArnFor "123456789012" "imagebuilder-foo"),
       .iamAddRoleToInstanceProfile "imagebuilder-foo" "imagebuilder-foo"] ∧
    create_instance_profile false profBar "123456789012" cloudHardcodedExists =
      ([.iamListInstanceProfiles "/imagebuilder/"],
       .ok ("imagebuilder-bar", cloudHardcodedExists)) := by
  decide

/-- C5: for a by-reference component whose identifier the verification call
accepts, resolution returns that identifier unchanged after a single lookup;
for an identifier rejected as malformed, the lookup is retried exactly once
with the fixed suffix `/1` appended, returning the suffixed identifier on
success, while a failure of the retried lookup propagates as a fatal error. -/
theorem byref_resolution_and_quirk_retry (bucket : Option String) (platform : String)
    (c : ComponentDef) (cloud : Cloud) (arn : String) (h : c.arn = some arn) :
    (getComponent cloud arn = .ok →
       resolveComponent bucket platform c cloud =
         ([.ibGetComponent arn], .ok (some arn, cloud))) ∧
    (getComponent cloud arn = .invalidParameter →
       (getComponent cloud (arn ++ "/1") = .ok →
          resolveComponent bucket platform c cloud =
            ([.ibGetComponent arn, .ibGetComponent (arn ++ "/1")],
             .ok (some (arn ++ "/1"), cloud))) ∧
       (getComponent cloud (arn ++ "/1") ≠ .ok →
          ((resolveComponent bucket platform c cloud).2.isOk = false ∧
           (resolveComponent bucket platform c cloud).1 =
             [.ibGetComponent arn, .ibGetComponent (arn ++ "/1")]))) := by
  refine ⟨?_, ?_⟩
  · intro hok
    simp only [resolveComponent, h, hok]
  · intro hinv
    refine ⟨?_, ?_⟩
    · intro hok1
      simp only [resolveComponent, h, hinv, hok1]
    · intro hne
      cases hg : getComponent cloud (arn ++ "/1") with
      | ok => exact absurd hg hne
      | notFound => simp [resolveComponent, h, hinv, hg, Except.isOk, Except.toBool]
      | invalidParameter => simp [resolveComponent, h, hinv, hg, Except.isOk, Except.toBool]

/-- Witness for the by-reference resolution behaviour at concrete inputs:
`arn:comp/agent` is rejected by the quirk, the suffixed lookup succeeds, and
resolution returns the suffixed identifier. -/
theorem byref_resolution_and_quirk_retry_witness :
    resolveComponent none "Linux" compRef cloudQuirk =
      ([.ibGetComponent "arn:comp/agent", .ibGetComponent "arn:comp/agent/1"],
       .ok (some "arn:comp/agent/1", cloudQuirk)) := by
  have h := byref_resolution_and_quirk_retry none "Linux" compRef cloudQuirk
    "arn:comp/agent" (by decide)
  exact (h.2 (by decide)).1 (by decide)

/-- C6: for an inline component definition, the created revision's version is
`0.0.(n+1)` with `n` the number of revisions the name-filtered listing
reports at call time; with no staging bucket the body is embedded in the
create call, and with a staging bucket the body is uploaded to S3 first and
the component is created by URI reference, never through an inline-body
create call. -/
theorem inline_component_version_and_staging (platform : String) (c : ComponentDef)
    (cloud : Cloud) (b : String) (h : c.arn = none) :
    (resolveComponent none platform c cloud =
      ([.ibListComponents c.name,
        .ibCreateComponentInline c.name
          ("0.0." ++ toString (versionsListed cloud.componentVersions c.name + 1))
          platform c.doc],
       .ok (some (mkComponentArn c.name
              ("0.0." ++ toString (versionsListed cloud.componentVersions c.name + 1))),
            { cloud with
                componentVersions := bumpVersions cloud.componentVersions c.name,
                components := (mkComponentArn c.name
                  ("0.0." ++ toString (versionsListed cloud.componentVersions c.name + 1)),
                  .ok) :: cloud.components }))) ∧
    (resolveComponent (some b) platform c cloud =
      ([.ibListComponents c.name, .s3PutObject b (stagingKey c.name cloud.now),
        .ibCreateComponentUri c.name
          ("0.0." ++ toString (versionsListed cloud.componentVersions c.name + 1))
          platform ("s3://" ++ b ++ "/" ++ stagingKey c.name cloud.now)],
       .ok (some (mkComponentArn c.name
              ("0.0." ++ toString (versionsListed cloud.componentVersions c.name + 1))),
            { cloud with
                componentVersions := bumpVersions cloud.componentVersions c.name,
                components := (mkComponentArn c.name
                  ("0.0." ++ toString (versionsListed cloud.componentVersions c.name + 1)),
                  .ok) :: cloud.components }))) ∧
    (∀ call ∈ (resolveComponent (some b) platform c cloud).1, isInlineCreate call = false) := by
  refine ⟨?_, ?_, ?_⟩
  · simp only [resolveComponent, h]
  · simp only [resolveComponent, h]
  · simp only [resolveComponent, h]
    intro call hc
    simp only [List.mem_cons, List.not_mem_nil, or_false] at hc
    rcases hc with hc | hc | hc
    all_goals rw [hc]; rfl

/-- Witness for the inline component behaviour at concrete inputs: no prior
revision of `install-agent` exists, so both the inline and the staged create
use version `0.0.1`, and the staged path performs the S3 upload before the
URI-based create. -/
theorem inline_component_version_and_staging_witness :
    resolveComponent none "Linux" compInline emptyCloud =
      ([.ibListComponents "install-agent",
        .ibCreateComponentInline "install-agent" "0.0.1" "Linux" "doc-yaml"],
       .ok (some (mkComponentArn "install-agent" "0.0.1"),
            { emptyCloud with
                componentVersions := [("install-agent", 1)],
                components := [(mkComponentArn "install-agent" "0.0.1", .ok)] })) := by
  have h := inline_component_version_and_staging "Linux" compInline emptyCloud "bkt" (by decide)
  exact h.1

/-- C7: the infrastructure-configuration and distribution-configuration
provisioners are idempotent by name: when a resource with the configured
name exists, the existing identifier is returned after the listing call
alone (no create call); when none exists, exactly one create call is made
and the new identifier is returned. -/
theorem config_provisioners_idempotent_by_name (ipn : Option String) (d : InfraDef)
    (e : DistDef) (cloud : Cloud) (nm dm : String)
    (hn : d.name = some nm) (hd : e.name = some dm) :
    (∀ arn, cloud.infraConfigs.lookup nm = some arn →
       create_infrastructure_config ipn d cloud =
         ([.ibListInfraConfigs nm], .ok (arn, d, cloud))) ∧
    (cloud.infraConfigs.lookup nm = none →
       create_infrastructure_config ipn d cloud =
         ([.ibListInfraConfigs nm, .ibCreateInfraConfig nm ipn],
          .ok (mkInfraArn nm, { d with instanceProfileName := some ipn },
               { cloud with infraConfigs := (nm, mkInfraArn nm) :: cloud.infraConfigs }))) ∧
    (∀ arn, cloud.distConfigs.lookup dm = some arn →
       create_distribution_configuration e cloud =
         ([.ibListDistConfigs dm], .ok (arn, cloud))) ∧
    (cloud.distConfigs.lookup dm = none →
       create_distribution_configuration e cloud =
         ([.ibListDistConfigs dm, .ibCreateDistConfig dm],
          .ok (mkDistArn dm,
               { cloud with distConfigs := (dm, mkDistArn dm) :: cloud.distConfigs }))) := by
  refine ⟨?_, ?_, ?_, ?_⟩
  · intro arn ha
    simp only [create_infrastructure_config, hn, ha]
  · intro ha
    simp only [create_infrastructure_config, hn, ha]
  · intro arn ha
    simp only [create_distribution_configuration, hd, ha]
  · intro ha
    simp only [create_distribution_configuration, hd, ha]

/-- Witness for configuration idempotence at concrete inputs: existing
`infra1`/`dist1` are reused with no create call. -/
theorem config_provisioners_idempotent_by_name_witness :
    create_infrastructure_config (some "prof") { name := some "infra1", instanceProfileName := none }
      cloudConfigsExist =
      ([.ibListInfraConfigs "infra1"],
       .ok ("arn:infra/old", { name := some "infra1", instanceProfileName := none },
            cloudConfigsExist)) ∧
    create_distribution_configuration { name := some "dist1" } cloudConfigsExist =
      ([.ibListDistConfigs "dist1"], .ok ("arn:dist/old", cloudConfigsExist)) := by
  have h := config_provisioners_idempotent_by_name (some "prof")
    { name := some "infra1", instanceProfileName := none } { name := some "dist1" }
    cloudConfigsExist "infra1" "dist1" (by decide) (by decide)
  exact ⟨h.1 "arn:infra/old" (by decide), h.2.2.1 "arn:dist/old" (by decide)⟩

/-- C8: for an existing pipeline name the provisioner deletes the existing
pipeline strictly before issuing the create call (the delete precedes the
create in the trace, so the old and new pipeline are never both live), and
the returned identifier is always the freshly created one — the existing
pipeline is never reused. -/
theorem pipeline_delete_before_create (nm r i dArn : String) (cloud : Cloud) :
    (∀ oldArn, cloud.pipelines.lookup nm = some oldArn →
       create_image_pipeline nm r i dArn cloud =
         ([.ibListImagePipelines nm, .ibDeleteImagePipeline oldArn,
           .ibCreateImagePipeline nm r i dArn],
          .ok (mkPipelineArn nm,
               { cloud with pipelines :=
                   (nm, mkPipelineArn nm) :: cloud.pipelines.filter (fun kv => kv.1 != nm) }))) ∧
    (cloud.pipelines.lookup nm = none →
       create_image_pipeline nm r i dArn cloud =
         ([.ibListImagePipelines nm, .ibCreateImagePipeline nm r i dArn],
          .ok (mkPipelineArn nm,
               { cloud with pipelines := (nm, mkPipelineArn nm) :: cloud.pipelines }))) := by
  refine ⟨?_, ?_⟩
  · intro oldArn ha
    simp only [create_image_pipeline, ha]
  · intro ha
    simp only [create_image_pipeline, ha]

/-- Witness for the pipeline recreation policy at a concrete input: with
`pipe1` existing as `arn:pipe/old`, the run deletes it and then creates the
new pipeline. -/
theorem pipeline_delete_before_create_witness :
    create_image_pipeline "pipe1" "r" "i" "d" cloudPipelineExists =
      ([.ibListImagePipelines "pipe1", .ibDeleteImagePipeline "arn:pipe/old",
        .ibCreateImagePipeline "pipe1" "r" "i" "d"],
       .ok (mkPipelineArn "pipe1",
            { cloudPipelineExists with pipelines := [("pipe1", mkPipelineArn "pipe1")] })) := by
  have h := (pipeline_delete_before_create "pipe1" "r" "i" "d" cloudPipelineExists).1
    "arn:pipe/old" (by decide)
  exact h.trans (by decide)

/-- C9: in update mode, when the first create-policy-version call hits the
bounded-history limit, the provisioner lists the versions, deletes exactly
one version — the last of the listing, i.e. the oldest, since the identity
service lists versions newest first — and retries the create exactly once;
when even the retry exceeds the limit, the error propagates fatally with no
further calls. -/
theorem policy_version_evict_oldest_retry_once (p : ProfileDict) (accountId : String)
    (cloud : Cloud) (nm oldest : String) (hn : p.name = some nm)
    (hex : 0 < (cloud.instanceProfiles.filter
                 (fun d => strContains d "ec2-image-builder-default")).length)
    (hfull : cloud.policyVersionLimit ≤ cloud.policyVersions.length)
    (hlast : cloud.policyVersions.getLast? = some oldest) :
    (create_instance_profile true p accountId cloud).1 =
      [.iamListInstanceProfiles "/imagebuilder/",
       .iamCreatePolicyVersion (policyArnFor accountId ("imagebuilder-" ++ nm)),
       .iamListPolicyVersions (policyArnFor accountId ("imagebuilder-" ++ nm)),
       .iamDeletePolicyVersion (policyArnFor accountId ("imagebuilder-" ++ nm)) oldest,
       .iamCreatePolicyVersion (policyArnFor accountId ("imagebuilder-" ++ nm))] ∧
    (cloud.policyVersions.dropLast.length < cloud.policyVersionLimit →
       (create_instance_profile true p accountId cloud).2 =
         .ok ("imagebuilder-" ++ nm,
              { cloud with policyVersions := "vNew" :: cloud.policyVersions.dropLast })) ∧
    (cloud.policyVersionLimit ≤ cloud.policyVersions.dropLast.length →
       (create_instance_profile true p accountId cloud).2 =
         .error (.limitExceeded "create_policy_version")) := by
  simp only [create_instance_profile, hn, if_pos hex, if_neg (Nat.not_lt.mpr hfull), hlast]
  by_cases hrem : cloud.policyVersions.dropLast.length < cloud.policyVersionLimit
  · simp only [if_pos hrem]
    exact ⟨rfl, fun _ => rfl, fun hc => absurd hc (Nat.not_le.mpr hrem)⟩
  · simp only [if_neg hrem]
    exact ⟨rfl, fun hc => absurd hc hrem, fun _ => rfl⟩

/-- Witness for the evict-oldest-then-retry path at a concrete input: the
history `v5 … v1` is at the limit 5, the deleted version is `v1` (the
oldest), and the retried create succeeds. -/
theorem policy_version_evict_oldest_retry_once_witness :
    (create_instance_profile true profFoo "123456789012" cloudPolicyFull).1 =
      [.iamListInstanceProfiles "/imagebuilder/",
       .iamCreatePolicyVersion (policyArnFor "123456789012" "imagebuilder-foo"),
       .iamListPolicyVersions (policyArnFor "123456789012" "imagebuilder-foo"),
       .iamDeletePolicyVersion (policyArnFor "123456789012" "imagebuilder-foo") "v1",
       .iamCreatePolicyVersion (policyArnFor "123456789012" "imagebuilder-foo")] := by
  have h := policy_version_evict_oldest_retry_once profFoo "123456789012" cloudPolicyFull
    "foo" "v1" (by decide) (by decide) (by decide) (by decide)
  exact h.1

/-- A trace with all calls in one stage is stage-sorted. -/
theorem stageSorted_of_const (t : List CloudCall) (k : Nat)
    (h : ∀ c ∈ t, stageOf c = k) : StageSorted t := by
  induction t with
  | nil => exact List.chain'_nil
  | cons a l ih =>
    cases l with
    | nil => exact List.chain'_singleton a
    | cons b m =>
      rw [StageSorted, List.chain'_cons]
      refine ⟨?_, ih ?_⟩
      · rw [h a (by simp), h b (by simp)]
      · intro c hc
        exact h c (List.mem_cons_of_mem a hc)

/-- Appending a trace of later stages keeps a trace stage-sorted. -/
theorem stageSorted_append (l t : List CloudCall) (k : Nat)
    (hs : StageSorted l) (hb : StageBounded k l)
    (ht : StageSorted t) (htl : ∀ c ∈ t, k ≤ stageOf c) :
    StageSorted (l ++ t) := by
  rw [StageSorted, List.chain'_append]
  refine ⟨hs, ht, ?_⟩
  intro x hx y hy
  have hxl : x ∈ l := by
    obtain ⟨hne, hx2⟩ := List.mem_getLast?_eq_getLast hx
    rw [hx2]; exact List.getLast_mem hne
  have hyt : y ∈ t := List.mem_of_mem_head? hy
  exact le_trans (hb x hxl) (htl y hyt)

/-- A stage bound is monotone. -/
theorem stageBounded_mono (k k2 : Nat) (l : List CloudCall) (hk : k ≤ k2)
    (h : StageBounded k l) : StageBounded k2 l :=
  fun c hc => le_trans (h c hc) hk

/-- A stage bound distributes over appending. -/
theorem stageBounded_append (k : Nat) (l t : List CloudCall)
    (hl : StageBounded k l) (ht : StageBounded k t) : StageBounded k (l ++ t) := by
  intro c hc
  rcases List.mem_append.mp hc with hc | hc
  · exact hl c hc
  · exact ht c hc

/-- A constant-stage trace is bounded by its stage. -/
theorem stageBounded_of_const (t : List CloudCall) (k : Nat)
    (h : ∀ c ∈ t, stageOf c = k) : StageBounded k t :=
  fun c hc => le_of_eq (h c hc)

/-- The calls of one component resolution all belong to stage 1. -/
theorem stage_calls_resolveComponent (b : Option String) (platform : String)
    (cd : ComponentDef) (cloud : Cloud) :
    ∀ c ∈ (resolveComponent b platform cd cloud).1, stageOf c = 1 := by
  cases h : cd.arn with
  | some arn =>
    cases h2 : getComponent cloud arn with
    | ok => simp [resolveComponent, h, h2, List.forall_mem_cons, stageOf]
    | notFound => simp [resolveComponent, h, h2, List.forall_mem_cons, stageOf]
    | invalidParameter =>
      cases h3 : getComponent cloud (arn ++ "/1") <;>
        simp [resolveComponent, h, h2, h3, List.forall_mem_cons, stageOf]
  | none =>
    cases b <;> simp [resolveComponent, h, List.forall_mem_cons, stageOf]

/-- The calls of the component-resolution stage all belong to stage 1. -/
theorem stage_calls_components (b : Option String) (platform : String)
    (l : List ComponentDef) : ∀ (cloud : Cloud),
    ∀ c ∈ (create_components b platform l cloud).1, stageOf c = 1 := by
  induction l with
  | nil => intro cloud c hc; simp [create_components] at hc
  | cons x rest ih =>
    intro cloud c hc
    unfold create_components at hc
    split at hc
    · rename_i t e heq
      have ht := stage_calls_resolveComponent b platform x cloud
      rw [heq] at ht
      exact ht c hc
    · rename_i t oarn cloud1 heq
      split at hc
      · rename_i t2 e2 heq2
        rcases List.mem_append.mp hc with hc | hc
        · have ht := stage_calls_resolveComponent b platform x cloud
          rw [heq] at ht
          exact ht c hc
        · have ht2 := ih cloud1
          rw [heq2] at ht2
          exact ht2 c hc
      · rename_i t2 l2 cloud2 heq2
        rcases List.mem_append.mp hc with hc | hc
        · have ht := stage_calls_resolveComponent b platform x cloud
          rw [heq] at ht
          exact ht c hc
        · have ht2 := ih cloud1
          rw [heq2] at ht2
          exact ht2 c hc

/-- The calls of the image-recipe stage all belong to stage 2. -/
theorem stage_calls_recipe (a : List String) (r : RecipeDef) (cloud : Cloud) :
    ∀ c ∈ (create_image_recipe a r cloud).1, stageOf c = 2 := by
  unfold create_image_recipe
  repeat' split
  all_goals simp [List.forall_mem_cons, stageOf]

/-- The calls of the instance-profile stage all belong to stage 3. -/
theorem stage_calls_profile (u : Bool) (p : ProfileDict) (a : String) (cloud : Cloud) :
    ∀ c ∈ (create_instance_profile u p a cloud).1, stageOf c = 3 := by
  cases hn : p.name with
  | none => simp [create_instance_profile, hn]
  | some nm =>
    by_cases hex : 0 < (cloud.instanceProfiles.filter
        (fun d => strContains d "ec2-image-builder-default")).length
    · cases u with
      | false =>
        simp [create_instance_profile, hn, if_pos hex, List.forall_mem_cons, stageOf]
      | true =>
        by_cases hlen : cloud.policyVersions.length < cloud.policyVersionLimit
        · simp [create_instance_profile, hn, if_pos hex, if_pos hlen,
            List.forall_mem_cons, stageOf]
        · cases hl : cloud.policyVersions.getLast? with
          | none =>
            simp [create_instance_profile, hn, if_pos hex, if_neg hlen, hl,
              List.forall_mem_cons, stageOf]
          | some oldest =>
            by_cases hrem : cloud.policyVersions.dropLast.length < cloud.policyVersionLimit
            · simp [create_instance_profile, hn, if_pos hex, if_neg hlen, hl, if_pos hrem,
                List.forall_mem_cons, stageOf, -List.length_dropLast]
            · simp [create_instance_profile, hn, if_pos hex, if_neg hlen, hl, if_neg hrem,
                List.forall_mem_cons, stageOf, -List.length_dropLast]
    · simp [create_instance_profile, hn, if_neg hex, List.forall_mem_cons, stageOf]

/-- The calls of the infrastructure-configuration stage all belong to
stage 4, and any create call among them carries exactly the profile name the
stage was given. -/
theorem stage_calls_infra (i : Option String) (d : InfraDef) (cloud : Cloud) :
    ∀ c ∈ (create_infrastructure_config i d cloud).1,
      stageOf c = 4 ∧ (infraCreateArg c = none ∨ infraCreateArg c = some i) := by
  unfold create_infrastructure_config
  repeat' split
  all_goals simp [List.forall_mem_cons, stageOf, infraCreateArg]

/-- The calls of the distribution-configuration stage all belong to stage 5. -/
theorem stage_calls_dist (d : DistDef) (cloud : Cloud) :
    ∀ c ∈ (create_distribution_configuration d cloud).1, stageOf c = 5 := by
  unfold create_distribution_configuration
  repeat' split
  all_goals simp [List.forall_mem_cons, stageOf]

/-- The calls of the pipeline stage all belong to stage 6. -/
theorem stage_calls_pipeline (nm r i d : String) (cloud : Cloud) :
    ∀ c ∈ (create_image_pipeline nm r i d cloud).1, stageOf c = 6 := by
  unfold create_image_pipeline
  repeat' split
  all_goals simp [List.forall_mem_cons, stageOf]

/-- The calls of the pipeline-start stage all belong to stage 7. -/
theorem stage_calls_start (parn : String) :
    ∀ c ∈ (start_image_pipeline parn).1, stageOf c = 7 := by
  simp [start_image_pipeline, List.forall_mem_cons, stageOf]

/-- A call outside stage 3 is not an identity-service profile call. -/
theorem profile_free_of_stage (c : CloudCall) (h : stageOf c ≠ 3) :
    isProfileIamCall c = false := by
  cases c <;> simp_all [stageOf, isProfileIamCall]

/-- A call outside stage 4 is not an infrastructure-configuration create. -/
theorem infra_arg_none_of_stage (c : CloudCall) (h : stageOf c ≠ 4) :
    infraCreateArg c = none := by
  cases c <;> simp_all [stageOf, infraCreateArg]

/-- A constant-stage trace outside stages 3 and 4 is benign for any profile
name. -/
theorem benign_of_const (ipn : Option String) (k : Nat) (l : List CloudCall)
    (hk3 : k ≠ 3) (hk4 : k ≠ 4) (h : ∀ c ∈ l, stageOf c = k) : Benign ipn l := by
  intro c hc
  have hs := h c hc
  refine ⟨profile_free_of_stage c (by rw [hs]; exact hk3), Or.inl ?_⟩
  exact infra_arg_none_of_stage c (by rw [hs]; exact hk4)

/-- Benignness distributes over appending. -/
theorem benign_append (ipn : Option String) (l t : List CloudCall)
    (hl : Benign ipn l) (ht : Benign ipn t) : Benign ipn (l ++ t) := by
  intro c hc
  rcases List.mem_append.mp hc with hc | hc
  · exact hl c hc
  · exact ht c hc

/-- The infrastructure-configuration stage's calls are benign for the
profile name it is given. -/
theorem benign_calls_infra (ipn : Option String) (d : InfraDef) (cloud : Cloud) :
    Benign ipn (create_infrastructure_config ipn d cloud).1 := by
  intro c hc
  obtain ⟨hs, ha⟩ := stage_calls_infra ipn d cloud c hc
  exact ⟨profile_free_of_stage c (by rw [hs]; decide), ha⟩

/-- The pipeline block of the teardown only lists and deletes pipelines. -/
theorem benign_calls_teardownPipelineStep (ipn : Option String) (pnm : String)
    (cloud : Cloud) : Benign ipn (teardownPipelineStep pnm cloud).1 := by
  unfold teardownPipelineStep
  split <;>
    simp [Benign, BenignFor, List.forall_mem_cons, isProfileIamCall, infraCreateArg]

/-- The infrastructure block of the teardown only lists and deletes
infrastructure configurations. -/
theorem benign_calls_teardownInfraStep (ipn : Option String) (u : Bool) (inm : String)
    (cloud : Cloud) : Benign ipn (teardownInfraStep u inm cloud).1 := by
  unfold teardownInfraStep
  split
  · split <;>
      simp [Benign, BenignFor, List.forall_mem_cons, isProfileIamCall, infraCreateArg]
  · simp [Benign, BenignFor, List.forall_mem_cons, isProfileIamCall, infraCreateArg]

/-- The distribution block of the teardown only lists and deletes
distribution configurations. -/
theorem benign_calls_teardownDistStep (ipn : Option String) (u : Bool) (dnm : String)
    (cloud : Cloud) : Benign ipn (teardownDistStep u dnm cloud).1 := by
  unfold teardownDistStep
  split
  · split <;>
      simp [Benign, BenignFor, List.forall_mem_cons, isProfileIamCall, infraCreateArg]
  · simp [Benign, BenignFor, List.forall_mem_cons, isProfileIamCall, infraCreateArg]

/-- The teardown's calls are neither profile calls nor
infrastructure-configuration creates. -/
theorem benign_calls_teardown (ipn : Option String) (u : Bool) (pd : PipelineDict)
    (cloud : Cloud) : Benign ipn (delete_pipeline_resources u pd cloud).1 := by
  unfold delete_pipeline_resources
  split
  · intro c hc; cases hc
  · rename_i pnm hpn
    split
    · rename_i t1 cloud1 heq1
      have h1 := benign_calls_teardownPipelineStep ipn pnm cloud
      rw [heq1] at h1
      split
      · exact h1
      · split
        · exact h1
        · rename_i infra hinfra inm hinm
          split
          · rename_i t2 cloud2 heq2
            have h2 := benign_calls_teardownInfraStep ipn u inm cloud1
            rw [heq2] at h2
            split
            · exact benign_append ipn t1 t2 h1 h2
            · split
              · exact benign_append ipn t1 t2 h1 h2
              · rename_i dist hdist dnm hdnm
                split
                · rename_i t3 cloud3 heq3
                  have h3 := benign_calls_teardownDistStep ipn u dnm cloud2
                  rw [heq3] at h3
                  exact benign_append ipn (t1 ++ t2) t3 (benign_append ipn t1 t2 h1 h2) h3

/-- Stage-sortedness through the pipeline-start tail of the run. -/
theorem stageSorted_runStart (opts : RunOptions) (parn : String) (acc : List CloudCall)
    (pdc : PipelineDict) (cl : Cloud) (hs : StageSorted acc) (hb : StageBounded 7 acc) :
    StageSorted (runStart opts parn acc pdc cl).calls := by
  unfold runStart
  split
  · exact stageSorted_append acc _ 7 hs hb
      (stageSorted_of_const _ 7 (stage_calls_start parn))
      (fun c hc => le_of_eq (stage_calls_start parn c hc).symm)
  · exact hs

/-- Stage-sortedness through the pipeline-provisioning tail of the run. -/
theorem stageSorted_runPipeline (opts : RunOptions) (r i d : String) (acc : List CloudCall)
    (pdc : PipelineDict) (cl : Cloud) (hs : StageSorted acc) (hb : StageBounded 6 acc) :
    StageSorted (runPipeline opts r i d acc pdc cl).calls := by
  unfold runPipeline
  split
  · exact hs
  · rename_i pnm hpn
    split
    · rename_i t e heq
      have ht := stage_calls_pipeline pnm r i d cl
      rw [heq] at ht
      exact stageSorted_append acc t 6 hs hb (stageSorted_of_const t 6 ht)
        (fun c hc => le_of_eq (ht c hc).symm)
    · rename_i t parn cl1 heq
      have ht := stage_calls_pipeline pnm r i d cl
      rw [heq] at ht
      exact stageSorted_runStart opts parn (acc ++ t) pdc cl1
        (stageSorted_append acc t 6 hs hb (stageSorted_of_const t 6 ht)
          (fun c hc => le_of_eq (ht c hc).symm))
        (stageBounded_append 7 acc t (stageBounded_mono 6 7 acc (by omega) hb)
          (stageBounded_mono 6 7 t (by omega) (stageBounded_of_const t 6 ht)))

/-- Stage-sortedness through the distribution-configuration tail of the run. -/
theorem stageSorted_runDist (opts : RunOptions) (r i : String) (acc : List CloudCall)
    (pdc : PipelineDict) (cl : Cloud) (hs : StageSorted acc) (hb : StageBounded 5 acc) :
    StageSorted (runDist opts r i acc pdc cl).calls := by
  unfold runDist
  split
  · exact hs
  · rename_i dd hdd
    split
    · rename_i t e heq
      have ht := stage_calls_dist dd cl
      rw [heq] at ht
      exact stageSorted_append acc t 5 hs hb (stageSorted_of_const t 5 ht)
        (fun c hc => le_of_eq (ht c hc).symm)
    · rename_i t dArn cl1 heq
      have ht := stage_calls_dist dd cl
      rw [heq] at ht
      exact stageSorted_runPipeline opts r i dArn (acc ++ t) pdc cl1
        (stageSorted_append acc t 5 hs hb (stageSorted_of_const t 5 ht)
          (fun c hc => le_of_eq (ht c hc).symm))
        (stageBounded_append 6 acc t (stageBounded_mono 5 6 acc (by omega) hb)
          (stageBounded_mono 5 6 t (by omega) (stageBounded_of_const t 5 ht)))

/-- Stage-sortedness through the infrastructure-configuration tail of the
run. -/
theorem stageSorted_runInfra (opts : RunOptions) (r : String) (ipn : Option String)
    (acc : List CloudCall) (pdc : PipelineDict) (cl : Cloud)
    (hs : StageSorted acc) (hb : StageBounded 4 acc) :
    StageSorted (runInfra opts r ipn acc pdc cl).calls := by
  unfold runInfra
  split
  · exact hs
  · rename_i d hd
    split
    · rename_i t e heq
      have ht0 := stage_calls_infra ipn d cl
      rw [heq] at ht0
      have ht : ∀ c ∈ t, stageOf c = 4 := fun c hc => (ht0 c hc).1
      exact stageSorted_append acc t 4 hs hb (stageSorted_of_const t 4 ht)
        (fun c hc => le_of_eq (ht c hc).symm)
    · rename_i t iArn d1 cl1 heq
      have ht0 := stage_calls_infra ipn d cl
      rw [heq] at ht0
      have ht : ∀ c ∈ t, stageOf c = 4 := fun c hc => (ht0 c hc).1
      exact stageSorted_runDist opts r iArn (acc ++ t) _ cl1
        (stageSorted_append acc t 4 hs hb (stageSorted_of_const t 4 ht)
          (fun c hc => le_of_eq (ht c hc).symm))
        (stageBounded_append 5 acc t (stageBounded_mono 4 5 acc (by omega) hb)
          (stageBounded_mono 4 5 t (by omega) (stageBounded_of_const t 4 ht)))

/-- Stage-sortedness through the instance-profile tail of the run. -/
theorem stageSorted_runProfile (opts : RunOptions) (r : String) (acc : List CloudCall)
    (pdc : PipelineDict) (cl : Cloud) (hs : StageSorted acc) (hb : StageBounded 3 acc) :
    StageSorted (runProfile opts r acc pdc cl).calls := by
  unfold runProfile
  split
  · exact hs
  · rename_i p hp
    split
    · rename_i f hf
      split
      · rename_i t e heq
        have ht := stage_calls_profile opts.update p cl.accountId cl
        rw [heq] at ht
        exact stageSorted_append acc t 3 hs hb (stageSorted_of_const t 3 ht)
          (fun c hc => le_of_eq (ht c hc).symm)
      · rename_i t nm cl1 heq
        have ht := stage_calls_profile opts.update p cl.accountId cl
        rw [heq] at ht
        exact stageSorted_runInfra opts r (some nm) (acc ++ t) pdc cl1
          (stageSorted_append acc t 3 hs hb (stageSorted_of_const t 3 ht)
            (fun c hc => le_of_eq (ht c hc).symm))
          (stageBounded_append 4 acc t (stageBounded_mono 3 4 acc (by omega) hb)
            (stageBounded_mono 3 4 t (by omega) (stageBounded_of_const t 3 ht)))
    · exact stageSorted_runInfra opts r p.name acc pdc cl hs
        (stageBounded_mono 3 4 acc (by omega) hb)

/-- Stage-sortedness through the image-recipe tail of the run. -/
theorem stageSorted_runRecipe (opts : RunOptions) (comps : List String)
    (acc : List CloudCall) (pdc : PipelineDict) (cl : Cloud)
    (hs : StageSorted acc) (hb : StageBounded 2 acc) :
    StageSorted (runRecipe opts comps acc pdc cl).calls := by
  unfold runRecipe
  split
  · exact hs
  · rename_i rdef hrd
    split
    · rename_i t e heq
      have ht := stage_calls_recipe comps rdef cl
      rw [heq] at ht
      exact stageSorted_append acc t 2 hs hb (stageSorted_of_const t 2 ht)
        (fun c hc => le_of_eq (ht c hc).symm)
    · rename_i t rArn cl1 heq
      have ht := stage_calls_recipe comps rdef cl
      rw [heq] at ht
      exact stageSorted_runProfile opts rArn (acc ++ t) pdc cl1
        (stageSorted_append acc t 2 hs hb (stageSorted_of_const t 2 ht)
          (fun c hc => le_of_eq (ht c hc).symm))
        (stageBounded_append 3 acc t (stageBounded_mono 2 3 acc (by omega) hb)
          (stageBounded_mono 2 3 t (by omega) (stageBounded_of_const t 2 ht)))

/-- Stage-sortedness through the component-resolution tail of the run. -/
theorem stageSorted_runComponents (opts : RunOptions) (acc : List CloudCall)
    (pdc : PipelineDict) (cl : Cloud) (hs : StageSorted acc) (hb : StageBounded 1 acc) :
    StageSorted (runComponents opts acc pdc cl).calls := by
  unfold runComponents
  split
  · exact hs
  · rename_i platform hpl
    split
    · exact hs
    · rename_i comps hcm
      split
      · rename_i t e heq
        have ht := stage_calls_components opts.componentBucket platform comps cl
        rw [heq] at ht
        exact stageSorted_append acc t 1 hs hb (stageSorted_of_const t 1 ht)
          (fun c hc => le_of_eq (ht c hc).symm)
      · rename_i t clist cl1 heq
        have ht := stage_calls_components opts.componentBucket platform comps cl
        rw [heq] at ht
        exact stageSorted_runRecipe opts clist (acc ++ t) pdc cl1
          (stageSorted_append acc t 1 hs hb (stageSorted_of_const t 1 ht)
            (fun c hc => le_of_eq (ht c hc).symm))
          (stageBounded_append 2 acc t (stageBounded_mono 1 2 acc (by omega) hb)
            (stageBounded_mono 1 2 t (by omega) (stageBounded_of_const t 1 ht)))

/-- Benignness through the pipeline-start tail of the run. -/
theorem benign_runStart (ipn : Option String) (opts : RunOptions) (parn : String)
    (acc : List CloudCall) (pdc : PipelineDict) (cl : Cloud) (h : Benign ipn acc) :
    Benign ipn (runStart opts parn acc pdc cl).calls := by
  unfold runStart
  split
  · exact benign_append ipn acc _ h
      (benign_of_const ipn 7 _ (by decide) (by decide) (stage_calls_start parn))
  · exact h

/-- Benignness through the pipeline-provisioning tail of the run. -/
theorem benign_runPipeline (ipn : Option String) (opts : RunOptions) (r i d : String)
    (acc : List CloudCall) (pdc : PipelineDict) (cl : Cloud) (h : Benign ipn acc) :
    Benign ipn (runPipeline opts r i d acc pdc cl).calls := by
  unfold runPipeline
  split
  · exact h
  · rename_i pnm hpn
    split
    · rename_i t e heq
      have ht := stage_calls_pipeline pnm r i d cl
      rw [heq] at ht
      exact benign_append ipn acc t h (benign_of_const ipn 6 t (by decide) (by decide) ht)
    · rename_i t parn cl1 heq
      have ht := stage_calls_pipeline pnm r i d cl
      rw [heq] at ht
      exact benign_runStart ipn opts parn (acc ++ t) pdc cl1
        (benign_append ipn acc t h (benign_of_const ipn 6 t (by decide) (by decide) ht))

/-- Benignness through the distribution-configuration tail of the run. -/
theorem benign_runDist (ipn : Option String) (opts : RunOptions) (r i : String)
    (acc : List CloudCall) (pdc : PipelineDict) (cl : Cloud) (h : Benign ipn acc) :
    Benign ipn (runDist opts r i acc pdc cl).calls := by
  unfold runDist
  split
  · exact h
  · rename_i dd hdd
    split
    · rename_i t e heq
      have ht := stage_calls_dist dd cl
      rw [heq] at ht
      exact benign_append ipn acc t h (benign_of_const ipn 5 t (by decide) (by decide) ht)
    · rename_i t dArn cl1 heq
      have ht := stage_calls_dist dd cl
      rw [heq] at ht
      exact benign_runPipeline ipn opts r i dArn (acc ++ t) pdc cl1
        (benign_append ipn acc t h (benign_of_const ipn 5 t (by decide) (by decide) ht))

/-- Benignness through the infrastructure-configuration tail of the run: the
create call made there carries exactly the profile name the stage was
given. -/
theorem benign_runInfra (ipn : Option String) (opts : RunOptions) (r : String)
    (acc : List CloudCall) (pdc : PipelineDict) (cl : Cloud) (h : Benign ipn acc) :
    Benign ipn (runInfra opts r ipn acc pdc cl).calls := by
  unfold runInfra
  split
  · exact h
  · rename_i d hd
    split
    · rename_i t e heq
      have ht := benign_calls_infra ipn d cl
      rw [heq] at ht
      exact benign_append ipn acc t h ht
    · rename_i t iArn d1 cl1 heq
      have ht := benign_calls_infra ipn d cl
      rw [heq] at ht
      exact benign_runDist ipn opts r iArn (acc ++ t) _ cl1 (benign_append ipn acc t h ht)

/-- Benignness through the instance-profile tail of the run, when the
instance-profile section has no policy file: the stage is skipped and its
`name` entry is handed to the infrastructure stage. -/
theorem benign_runProfile (opts : RunOptions) (r : String) (acc : List CloudCall)
    (pdc : PipelineDict) (cl : Cloud) (p : ProfileDict)
    (hp : pdc.instanceProfile = some p) (hf : p.file = none)
    (h : Benign p.name acc) : Benign p.name (runProfile opts r acc pdc cl).calls := by
  unfold runProfile
  split
  · exact h
  · rename_i q hq
    rw [hp] at hq
    injection hq with hq
    subst hq
    split
    · rename_i f hfq
      rw [hf] at hfq
      exact Option.noConfusion hfq
    · exact benign_runInfra p.name opts r acc pdc cl h

/-- Benignness through the image-recipe tail of the run, when the
instance-profile section has no policy file. -/
theorem benign_runRecipe (opts : RunOptions) (comps : List String)
    (acc : List CloudCall) (pdc : PipelineDict) (cl : Cloud) (p : ProfileDict)
    (hp : pdc.instanceProfile = some p) (hf : p.file = none)
    (h : Benign p.name acc) : Benign p.name (runRecipe opts comps acc pdc cl).calls := by
  unfold runRecipe
  split
  · exact h
  · rename_i rdef hrd
    split
    · rename_i t e heq
      have ht := stage_calls_recipe comps rdef cl
      rw [heq] at ht
      exact benign_append _ acc t h (benign_of_const _ 2 t (by decide) (by decide) ht)
    · rename_i t rArn cl1 heq
      have ht := stage_calls_recipe comps rdef cl
      rw [heq] at ht
      exact benign_runProfile opts rArn (acc ++ t) pdc cl1 p hp hf
        (benign_append _ acc t h (benign_of_const _ 2 t (by decide) (by decide) ht))

/-- Benignness through the component-resolution tail of the run, when the
instance-profile section has no policy file. -/
theorem benign_runComponents (opts : RunOptions) (acc : List CloudCall)
    (pdc : PipelineDict) (cl : Cloud) (p : ProfileDict)
    (hp : pdc.instanceProfile = some p) (hf : p.file = none)
    (h : Benign p.name acc) : Benign p.name (runComponents opts acc pdc cl).calls := by
  unfold runComponents
  split
  · exact h
  · rename_i platform hpl
    split
    · exact h
    · rename_i comps hcm
      split
      · rename_i t e heq
        have ht := stage_calls_components opts.componentBucket platform comps cl
        rw [heq] at ht
        exact benign_append _ acc t h (benign_of_const _ 1 t (by decide) (by decide) ht)
      · rename_i t clist cl1 heq
        have ht := stage_calls_components opts.componentBucket platform comps cl
        rw [heq] at ht
        exact benign_runRecipe opts clist (acc ++ t) pdc cl1 p hp hf
          (benign_append _ acc t h (benign_of_const _ 1 t (by decide) (by decide) ht))

/-- The pipeline-start tail leaves the definition untouched. -/
theorem finalDef_runStart (opts : RunOptions) (parn : String) (acc : List CloudCall)
    (pdc : PipelineDict) (cl : Cloud) : (runStart opts parn acc pdc cl).finalDef = pdc := by
  unfold runStart
  split <;> rfl

/-- The pipeline-provisioning tail leaves the definition untouched. -/
theorem finalDef_runPipeline (opts : RunOptions) (r i d : String) (acc : List CloudCall)
    (pdc : PipelineDict) (cl : Cloud) :
    (runPipeline opts r i d acc pdc cl).finalDef = pdc := by
  unfold runPipeline
  split
  · rfl
  · split
    · rfl
    · exact finalDef_runStart _ _ _ _ _

/-- The distribution-configuration tail leaves the definition untouched. -/
theorem finalDef_runDist (opts : RunOptions) (r i : String) (acc : List CloudCall)
    (pdc : PipelineDict) (cl : Cloud) :
    (runDist opts r i acc pdc cl).finalDef = pdc := by
  unfold runDist
  split
  · rfl
  · split
    · rfl
    · exact finalDef_runPipeline _ _ _ _ _ _ _

/-- The definition trivially differs from itself in no way. -/
theorem infraOnlyDiff_refl (pd : PipelineDict) : InfraOnlyDiff pd pd :=
  ⟨rfl, rfl, rfl, rfl, rfl, rfl, Or.inl rfl⟩

/-- The definition the infrastructure-configuration provisioner leaves
behind is either the one it was given (reuse path) or that one with the
`instanceProfileName` entry set (create path). -/
theorem create_infra_def_cases (i : Option String) (d : InfraDef) (cloud : Cloud)
    (t : List CloudCall) (arn : String) (d1 : InfraDef) (cl1 : Cloud)
    (h : create_infrastructure_config i d cloud = (t, .ok (arn, d1, cl1))) :
    d1 = d ∨ d1 = { d with instanceProfileName := some i } := by
  unfold create_infrastructure_config at h
  split at h
  · simp only [Prod.mk.injEq] at h
    exact Except.noConfusion h.2
  · split at h
    · simp only [Prod.mk.injEq, Except.ok.injEq] at h
      exact Or.inl h.2.2.1.symm
    · simp only [Prod.mk.injEq, Except.ok.injEq] at h
      exact Or.inr h.2.2.1.symm

/-- The infrastructure-configuration tail mutates at most the
`instanceProfileName` entry of the infrastructure sub-mapping. -/
theorem infraOnly_runInfra (opts : RunOptions) (r : String) (ipn : Option String)
    (acc : List CloudCall) (pdc : PipelineDict) (cl : Cloud) :
    InfraOnlyDiff pdc (runInfra opts r ipn acc pdc cl).finalDef := by
  unfold runInfra
  split
  · exact infraOnlyDiff_refl pdc
  · rename_i d hd
    split
    · exact infraOnlyDiff_refl pdc
    · rename_i t iArn d1 cl1 heq
      rw [finalDef_runDist _ _ _ _ _ _]
      refine ⟨rfl, rfl, rfl, rfl, rfl, rfl, ?_⟩
      rcases create_infra_def_cases ipn d cl t iArn d1 cl1 heq with h1 | h1
      · exact Or.inl (by rw [h1, hd])
      · exact Or.inr ⟨d, ipn, hd, by rw [h1]⟩

/-- The instance-profile tail mutates at most the `instanceProfileName`
entry of the infrastructure sub-mapping. -/
theorem infraOnly_runProfile (opts : RunOptions) (r : String) (acc : List CloudCall)
    (pdc : PipelineDict) (cl : Cloud) :
    InfraOnlyDiff pdc (runProfile opts r acc pdc cl).finalDef := by
  unfold runProfile
  split
  · exact infraOnlyDiff_refl pdc
  · rename_i p hp
    split
    · rename_i f hf
      split
      · exact infraOnlyDiff_refl pdc
      · rename_i t nm cl1 heq
        exact infraOnly_runInfra opts r (some nm) (acc ++ t) pdc cl1
    · exact infraOnly_runInfra opts r p.name acc pdc cl

/-- The image-recipe tail mutates at most the `instanceProfileName` entry of
the infrastructure sub-mapping. -/
theorem infraOnly_runRecipe (opts : RunOptions) (comps : List String)
    (acc : List CloudCall) (pdc : PipelineDict) (cl : Cloud) :
    InfraOnlyDiff pdc (runRecipe opts comps acc pdc cl).finalDef := by
  unfold runRecipe
  split
  · exact infraOnlyDiff_refl pdc
  · rename_i rdef hrd
    split
    · exact infraOnlyDiff_refl pdc
    · rename_i t rArn cl1 heq
      exact infraOnly_runProfile opts rArn (acc ++ t) pdc cl1

/-- The component-resolution tail mutates at most the `instanceProfileName`
entry of the infrastructure sub-mapping. -/
theorem infraOnly_runComponents (opts : RunOptions) (acc : List CloudCall)
    (pdc : PipelineDict) (cl : Cloud) :
    InfraOnlyDiff pdc (runComponents opts acc pdc cl).finalDef := by
  unfold runComponents
  split
  · exact infraOnlyDiff_refl pdc
  · rename_i platform hpl
    split
    · exact infraOnlyDiff_refl pdc
    · rename_i comps hcm
      split
      · exact infraOnlyDiff_refl pdc
      · rename_i t clist cl1 heq
        exact infraOnly_runRecipe opts clist (acc ++ t) pdc cl1

/-- C1 counterexample: with the `platform` key missing from the definition,
the run still performs the two session-details remote calls (STS caller
identity and IAM account aliases) before failing with the `KeyError`; no
schema validation precedes remote calls, refuting the claim that a fatal
validation error is reported before any remote call. -/
theorem remote_calls_precede_validation_failure :
    (run optsPlain pdNoPlatform emptyCloud).outcome = .error (.keyError "platform") ∧
    (run optsPlain pdNoPlatform emptyCloud).calls =
      [.stsGetCallerIdentity, .iamListAccountAliases] := by
  decide

/-- C1 amended: there is no up-front schema validation.  A definition
missing a required key aborts with a fatal `KeyError` only when the key is
first accessed; for the first-accessed key `platform` (in a non-update run)
that point comes after exactly the two session-details remote calls, so
remote calls always precede the failure. -/
theorem missing_platform_fails_after_session_calls (opts : RunOptions)
    (pd : PipelineDict) (cloud : Cloud) (hu : opts.update = false)
    (hp : pd.platform = none) :
    (run opts pd cloud).outcome = .error (.keyError "platform") ∧
    (run opts pd cloud).calls = sessionCalls := by
  have hr : run opts pd cloud = mkErr sessionCalls (.keyError "platform") pd cloud := by
    simp [run, runComponents, hu, hp]
  rw [hr]
  exact ⟨rfl, rfl⟩

/-- Witness for the amended C1 at a concrete input. -/
theorem missing_platform_fails_after_session_calls_witness :
    (run optsPlain pdNoPlatform emptyCloud).outcome = .error (.keyError "platform") :=
  (missing_platform_fails_after_session_calls optsPlain pdNoPlatform emptyCloud rfl rfl).1

/-- C2 counterexample: on a complete definition whose instance-profile
section has a policy file, the run's trace contains an image-recipe create
call strictly before its first identity-service profile call: the image
recipe stage runs before the instance-profile stage, refuting the claimed
order (components, instance profile, image recipe, …). -/
theorem recipe_stage_precedes_profile_stage :
    (run optsPlain pdFull emptyCloud).calls.any isRecipeCreate = true ∧
    (run optsPlain pdFull emptyCloud).calls.any isProfileIamCall = true ∧
    (run optsPlain pdFull emptyCloud).calls.findIdx isRecipeCreate <
      (run optsPlain pdFull emptyCloud).calls.findIdx isProfileIamCall := by
  decide

/-- C2 amended: in a non-update run the stages execute in the fixed order
session details, component resolution, image recipe, instance profile,
infrastructure configuration, distribution configuration, pipeline,
optional start — the trace's stage indices never decrease, so control flows
strictly forward and no stage re-enters an earlier one. -/
theorem run_stages_forward_order (opts : RunOptions) (pd : PipelineDict)
    (cloud : Cloud) (hu : opts.update = false) :
    StageSorted (run opts pd cloud).calls := by
  have hr : run opts pd cloud = runComponents opts sessionCalls pd cloud := by
    simp [run, hu]
  rw [hr]
  exact stageSorted_runComponents opts sessionCalls pd cloud
    (stageSorted_of_const sessionCalls 0 (by decide)) (by unfold StageBounded; decide)

/-- Witness for the amended C2 at a concrete input. -/
theorem run_stages_forward_order_witness :
    StageSorted (run optsPlain pdFull emptyCloud).calls :=
  run_stages_forward_order optsPlain pdFull emptyCloud rfl

/-- C4 counterexample: a successful run mutates the parsed definition: the
infrastructure-configuration sub-mapping acquires the `instanceProfileName`
entry, so the in-memory PipelineDefinition is not immutable. -/
theorem run_mutates_infrastructure_submapping :
    (run optsPlain pdFull emptyCloud).outcome = .ok () ∧
    (run optsPlain pdFull emptyCloud).finalDef ≠ pdFull ∧
    (run optsPlain pdFull emptyCloud).finalDef.infrastructureConfiguration =
      some { name := some "infra1",
             instanceProfileName := some (some "imagebuilder-prof") } := by
  decide

/-- C4 amended: no stage of a run mutates any part of the parsed definition
except the infrastructure-configuration provisioner, which on its create
path sets the `instanceProfileName` entry of the infrastructure
sub-mapping; every other top-level entry is left unchanged. -/
theorem run_mutates_only_infra_submapping (opts : RunOptions) (pd : PipelineDict)
    (cloud : Cloud) : InfraOnlyDiff pd (run opts pd cloud).finalDef := by
  unfold run
  split
  · split
    · exact infraOnlyDiff_refl pd
    · rename_i t cl1 heq
      exact infraOnly_runComponents opts (sessionCalls ++ t) pd cl1
  · exact infraOnly_runComponents opts sessionCalls pd cloud

/-- Witness for the amended C4 at a concrete input. -/
theorem run_mutates_only_infra_submapping_witness :
    InfraOnlyDiff pdFull (run optsPlain pdFull emptyCloud).finalDef :=
  run_mutates_only_infra_submapping optsPlain pdFull emptyCloud

/-- C10: when the instance-profile section has no policy-file entry, the run
makes no identity-service call for the instance profile (no profile, role or
policy call at all), and every infrastructure-configuration create call in
the trace carries the configured profile name through unchanged. -/
theorem no_profile_calls_without_policy_file (opts : RunOptions) (pd : PipelineDict)
    (cloud : Cloud) (p : ProfileDict) (hp : pd.instanceProfile = some p)
    (hf : p.file = none) :
    ∀ c ∈ (run opts pd cloud).calls,
      isProfileIamCall c = false ∧
      (infraCreateArg c = none ∨ infraCreateArg c = some p.name) := by
  have hsession : Benign p.name sessionCalls :=
    benign_of_const p.name 0 sessionCalls (by decide) (by decide) (by decide)
  unfold run
  split
  · split
    · rename_i t e heq
      have ht := benign_calls_teardown p.name opts.update pd cloud
      rw [heq] at ht
      exact benign_append _ sessionCalls t hsession ht
    · rename_i t cl1 heq
      have ht := benign_calls_teardown p.name opts.update pd cloud
      rw [heq] at ht
      exact benign_runComponents opts (sessionCalls ++ t) pd cl1 p hp hf
        (benign_append _ sessionCalls t hsession ht)
  · exact benign_runComponents opts sessionCalls pd cloud p hp hf hsession

/-- Witness for C10 at a concrete input: the infrastructure-configuration
create call of a concrete no-policy-file run is in the trace, is not a
profile call, and carries the configured name `prof`. -/
theorem no_profile_calls_without_policy_file_witness :
    CloudCall.ibCreateInfraConfig "infra1" (some "prof") ∈
      (run optsPlain pdNoFile emptyCloud).calls ∧
    isProfileIamCall (CloudCall.ibCreateInfraConfig "infra1" (some "prof")) = false ∧
    (infraCreateArg (CloudCall.ibCreateInfraConfig "infra1" (some "prof")) = none ∨
     infraCreateArg (CloudCall.ibCreateInfraConfig "infra1" (some "prof")) =
       some (some "prof")) := by
  refine ⟨by decide, ?_⟩
  exact no_profile_calls_without_policy_file optsPlain pdNoFile emptyCloud
    { name := some "prof", file := none } rfl rfl
    (CloudCall.ibCreateInfraConfig "infra1" (some "prof")) (by decide)

end ImageBuilder
